import Mathlib

/-!
Shallow embedding of the SnackSprint food-ordering backend (src/main.py,
src/schemas.py) and proofs of its specified properties.

Python dictionaries that travel through the API are embedded as association
lists of string keys and dynamic values; machine floats are abstracted as
rationals; exceptions become Except values; the document store (the imported
module named database, which is not part of src/) is modelled from the spec
as an accessor over three collections with injectable faults.
-/

set_option autoImplicit false

namespace SnackSprint

/-- Payload for one order line, mirroring the pydantic model OrderItemPayload
in src/main.py (item_id, name, price as float, quantity as int). -/
structure OrderItemPayload where
  item_id : String
  name : String
  price : ℚ
  quantity : ℤ
deriving DecidableEq, Repr

/-- Dynamic JSON-ish value stored in a document field. Only the shapes this
program actually stores are present; the nested list of order items is kept
typed (vItems) because it is produced by model_dump on typed payloads. -/
inductive Value where
  | vStr (s : String)
  | vNum (q : ℚ)
  | vBool (b : Bool)
  | vNull
  | vItems (items : List OrderItemPayload)
deriving DecidableEq, Repr

/-- A document is a Python dict: an insertion-ordered association list with
unique keys. -/
abbrev Doc := List (String × Value)

/-- Lookup of a field, as Python dict subscripting (first matching key). -/
def lookupField : Doc → String → Option Value
  | [], _ => none
  | (k, v) :: rest, key => if k = key then some v else lookupField rest key

/-- Removal of a field if present, as dict.pop with a default. -/
def eraseField : Doc → String → Doc
  | [], _ => []
  | (k, v) :: rest, key => if k = key then rest else (k, v) :: eraseField rest key

/-- Removal of a field returning its value, as dict.pop without a default:
none models the KeyError raised when the key is absent. -/
def popField : Doc → String → Option (Value × Doc)
  | [], _ => none
  | (k, v) :: rest, key =>
    if k = key then some (v, rest)
    else match popField rest key with
      | none => none
      | some (v0, rest0) => some (v0, (k, v) :: rest0)

/-- Assignment of a field, as dict subscript assignment: replaces in place if
the key exists, otherwise appends (Python dicts keep insertion order). -/
def setField : Doc → String → Value → Doc
  | [], key, v => [(key, v)]
  | (k, v0) :: rest, key, v =>
    if k = key then (key, v) :: rest else (k, v0) :: setField rest key v

/-- Conversion of a stored value to a string, modelling the str() call applied
to a store identity in the remapping step. -/
def valueStr : Value → String
  | .vStr s => s
  | .vNum q => toString q
  | .vBool b => toString b
  | .vNull => "None"
  | .vItems _ => "items"

/-- Rounds a rational to 2 decimal places, modelling round(x, 2) in the code
and the round of the spec. Exact half-hundredth ties round up here; the claims
never separate the two tie conventions because spec and code apply the same
rounding. -/
def round2 (q : ℚ) : ℚ := (round (q * 100) : ℤ) / 100

/-- The DEMO_RESTAURANT fixture of src/main.py. -/
def DEMO_RESTAURANT : Doc :=
  [("id", .vStr "demo-1"),
   ("name", .vStr "SnackSprint Diner"),
   ("description", .vStr "Burgers, bowls and bites delivered fast"),
   ("image", .vStr "https://images.unsplash.com/photo-1550547660-d9450f859349?w=1200"),
   ("cuisine", .vStr "American"),
   ("rating", .vNum 4.7)]

/-- The DEMO_MENU fixture of src/main.py: three items, all referencing the
demo restaurant id. -/
def DEMO_MENU : List Doc :=
  [[("id", .vStr "m1"),
    ("restaurant_id", .vStr "demo-1"),
    ("name", .vStr "Classic Burger"),
    ("description", .vStr "Juicy beef patty, cheddar, pickles"),
    ("price", .vNum 9.99),
    ("image", .vStr "https://images.unsplash.com/photo-1550547660-2f9b63f1f7b0?w=1200"),
    ("is_veg", .vBool false),
    ("spice_level", .vStr "Mild")],
   [("id", .vStr "m2"),
    ("restaurant_id", .vStr "demo-1"),
    ("name", .vStr "Veggie Bowl"),
    ("description", .vStr "Roasted veggies, quinoa, tahini"),
    ("price", .vNum 8.49),
    ("image", .vStr "https://images.unsplash.com/photo-1512621776951-a57141f2eefd?w=1200"),
    ("is_veg", .vBool true),
    ("spice_level", .vStr "Medium")],
   [("id", .vStr "m3"),
    ("restaurant_id", .vStr "demo-1"),
    ("name", .vStr "Spicy Chicken Wrap"),
    ("description", .vStr "Crispy chicken, chipotle mayo"),
    ("price", .vNum 10.49),
    ("image", .vStr "https://images.unsplash.com/photo-1604908177076-9f2bf5f7955f?w=1200"),
    ("is_veg", .vBool false),
    ("spice_level", .vStr "Hot")]]

/-- Modelled from the spec: the document store behind the database module
(absent from src/), holding the three collections the code touches plus a
counter from which fresh identities are assigned. -/
structure Store where
  restaurant : List Doc
  menuitem : List Doc
  order : List Doc
  nextId : Nat
deriving DecidableEq, Repr

/-- Modelled from the spec: the fresh identity string the store assigns to
the document numbered n (distinct and non-empty for each n). -/
def oidStr (n : Nat) : String := "oid" ++ toString n

/-- Contents of a collection selected by name. -/
def Store.getColl (s : Store) : String → List Doc
  | "restaurant" => s.restaurant
  | "menuitem" => s.menuitem
  | "order" => s.order
  | _ => []

/-- Store with a document appended to the named collection. -/
def Store.putColl (s : Store) (coll : String) (d : Doc) : Store :=
  match coll with
  | "restaurant" => { s with restaurant := s.restaurant ++ [d] }
  | "menuitem" => { s with menuitem := s.menuitem ++ [d] }
  | "order" => { s with order := s.order ++ [d] }
  | _ => s

/-- Modelled from the spec: one configured store connection together with the
failure mode of each accessor operation; a some fault means that operation
raises with that message. The diagnostics route additionally reads the store
name and the collection-name listing. -/
structure StoreBehavior where
  store : Store
  name : String
  countFault : Option String
  queryFault : Option String
  insertFault : Option String
  listCollectionsResult : Except String (List String)
deriving Repr

/-- Modelled from the spec: count(collection, filter) of the accessor, used
for the existence check in the seed route. -/
def count_documents (b : StoreBehavior) (coll : String) : Except String Nat :=
  match b.countFault with
  | some e => .error e
  | none => .ok (b.store.getColl coll).length

/-- Modelled from the spec: insert(collection, document) of the accessor;
the store assigns a fresh identity, stores it under the native identity key,
and returns it as a string. -/
def create_document (b : StoreBehavior) (coll : String) (doc : Doc) :
    Except String (String × StoreBehavior) :=
  match b.insertFault with
  | some e => .error e
  | none =>
    let oid := oidStr b.store.nextId
    let stored := ("_id", Value.vStr oid) :: doc
    .ok (oid, { b with store :=
      { b.store.putColl coll stored with nextId := b.store.nextId + 1 } })

/-- Whether a document matches a filter: every filter field must be present
with an equal value. -/
def matchesFilter (d : Doc) (filter : Doc) : Bool :=
  filter.all fun kv => decide (lookupField d kv.1 = some kv.2)

/-- Modelled from the spec: query(collection, filter) of the accessor,
returning the stored documents matching the filter. -/
def get_documents (b : StoreBehavior) (coll : String) (filter : Doc) :
    Except String (List Doc) :=
  match b.queryFault with
  | some e => .error e
  | none => .ok ((b.store.getColl coll).filter (fun d => matchesFilter d filter))

/-- Modelled from the spec: the collection-name listing used only by the
diagnostics route, which may itself fail. -/
def list_collection_names (b : StoreBehavior) : Except String (List String) :=
  b.listCollectionsResult

/-- An HTTPException as raised by the handlers: status code and detail text. -/
structure HErr where
  status : Nat
  detail : String
deriving DecidableEq, Repr

/-- Response body of the seed route. -/
structure SeedResp where
  ok : Bool
  mode : String
deriving DecidableEq, Repr

/-- Response body of the orders route. -/
structure OrderResp where
  ok : Bool
  order_id : String
deriving DecidableEq, Repr

/-- The pydantic model OrderPayload of src/main.py: the structurally valid
order request after transport-layer validation. -/
structure OrderPayload where
  restaurant_id : String
  customer_name : String
  phone : String
  address : String
  notes : Option String
  items : List OrderItemPayload
deriving DecidableEq, Repr

/-- The restaurant document built inline in seed_demo_data: the demo
restaurant fields except its demo id. -/
def seedRestaurantDoc : Doc :=
  [("name", .vStr "SnackSprint Diner"),
   ("description", .vStr "Burgers, bowls and bites delivered fast"),
   ("image", .vStr "https://images.unsplash.com/photo-1550547660-d9450f859349?w=1200"),
   ("cuisine", .vStr "American"),
   ("rating", .vNum 4.7)]

/-- The per-item body of the seed loop: copy the fixture, drop its demo id,
point restaurant_id at the stored restaurant, insert. -/
def seedMenuLoop (rid : String) : StoreBehavior → List Doc → Except String StoreBehavior
  | b, [] => .ok b
  | b, itm :: rest => do
    let doc := setField (eraseField itm "id") "restaurant_id" (.vStr rid)
    let (_, b1) ← create_document b "menuitem" doc
    seedMenuLoop rid b1 rest

/-- The try body of seed_demo_data in store-backed mode: count restaurants,
and if none exist insert the demo restaurant then each demo menu item. -/
def seedDbBody (b : StoreBehavior) : Except String StoreBehavior := do
  let restaurants ← count_documents b "restaurant"
  if restaurants = 0 then
    let (rid, b1) ← create_document b "restaurant" seedRestaurantDoc
    seedMenuLoop rid b1 DEMO_MENU
  else
    .ok b

/-- The POST /seed handler seed_demo_data of src/main.py. The option is the
global db handle (none when no store is configured); the returned option is
the handle after the call so that store effects are observable. -/
def seed_demo_data : Option StoreBehavior → Except HErr (SeedResp × Option StoreBehavior)
  | none => .ok ({ ok := true, mode := "demo" }, none)
  | some b =>
    match seedDbBody b with
    | .ok b1 => .ok ({ ok := true, mode := "db" }, some b1)
    | .error e => .error { status := 500, detail := e }

/-- The identity-remapping loop shared by the read routes: pop the native
identity of every document (raising if absent, hence the option result) and
store its string form under the public id key. -/
def remapIds : List Doc → Option (List Doc)
  | [] => some []
  | d :: ds =>
    match popField d "_id" with
    | none => none
    | some (v, d1) =>
      match remapIds ds with
      | none => none
      | some rest => some (setField d1 "id" (.vStr (valueStr v)) :: rest)

/-- The GET /restaurants handler list_restaurants of src/main.py: demo
fixture when no store is configured, otherwise the remapped query result,
falling back to the demo fixture on any error. -/
def list_restaurants : Option StoreBehavior → List Doc
  | none => [DEMO_RESTAURANT]
  | some b =>
    match get_documents b "restaurant" [] with
    | .error _ => [DEMO_RESTAURANT]
    | .ok data =>
      match remapIds data with
      | none => [DEMO_RESTAURANT]
      | some data1 => data1

/-- The demo-menu filter used by list_menu: items whose restaurant_id equals
the requested id. -/
def demoMenuFor (restaurant_id : String) : List Doc :=
  DEMO_MENU.filter fun m =>
    decide (lookupField m "restaurant_id" = some (.vStr restaurant_id))

/-- The GET /menu handler list_menu of src/main.py: filtered demo fixture
when no store is configured, otherwise the remapped filtered query result,
falling back to the filtered demo fixture on any error. -/
def list_menu (odb : Option StoreBehavior) (restaurant_id : String) : List Doc :=
  match odb with
  | none => demoMenuFor restaurant_id
  | some b =>
    match get_documents b "menuitem" [("restaurant_id", .vStr restaurant_id)] with
    | .error _ => demoMenuFor restaurant_id
    | .ok items =>
      match remapIds items with
      | none => demoMenuFor restaurant_id
      | some items1 => items1

/-- The order total computed in create_order before rounding: the sum over
items of max(1, quantity) times the price. -/
def orderTotal (items : List OrderItemPayload) : ℚ :=
  (items.map fun i => ((max 1 i.quantity : ℤ) : ℚ) * i.price).sum

/-- An optional note as stored (None becomes null). -/
def notesValue : Option String → Value
  | none => .vNull
  | some s => .vStr s

/-- The order document built by create_order from the payload. -/
def orderDocOf (p : OrderPayload) : Doc :=
  [("restaurant_id", .vStr p.restaurant_id),
   ("customer_name", .vStr p.customer_name),
   ("phone", .vStr p.phone),
   ("address", .vStr p.address),
   ("notes", notesValue p.notes),
   ("items", .vItems p.items),
   ("total", .vNum (round2 (orderTotal p.items))),
   ("status", .vStr "pending")]

/-- The POST /orders handler create_order of src/main.py: builds the order
document, returns a fixed placeholder without persisting in demo mode, and
otherwise inserts it, surfacing a store failure as a 500. -/
def create_order (odb : Option StoreBehavior) (p : OrderPayload) :
    Except HErr (OrderResp × Option StoreBehavior) :=
  let order_doc := orderDocOf p
  match odb with
  | none => .ok ({ ok := true, order_id := "demo-order-1" }, none)
  | some b =>
    match create_document b "order" order_doc with
    | .ok (oid, b1) => .ok ({ ok := true, order_id := oid }, some b1)
    | .error e => .error { status := 500, detail := e }

/-- Presence of the two configuration variables in the process environment
(none when unset; some holds the raw value). -/
structure Env where
  databaseUrl : Option String
  databaseName : Option String
deriving DecidableEq, Repr

/-- Python truthiness of an os.getenv result: an unset variable gives None
(falsy) and a set variable gives its string, falsy exactly when empty. -/
def envTruthy : Option String → Bool
  | none => false
  | some s => !(s = "")

/-- Response of the diagnostics route; the two marker fields are options
because the code initialises them to None before overwriting. -/
structure DiagResp where
  backend : String
  database : String
  database_url : Option String
  database_name : Option String
  connection_status : String
  collections : List String
deriving DecidableEq, Repr

/-- The GET /test handler test_database of src/main.py, straight-line: the
initial response dict, the store-dependent updates inside the try (whose
only fallible call, the collection listing, is wrapped in its own inner
try), and the final unconditional presence markers. The outer except branch
is dead in this embedding because every other operation in the try body is
total. -/
def test_database (odb : Option StoreBehavior) (env : Env) : DiagResp :=
  let r0 : DiagResp :=
    { backend := "✅ Running"
      database := "❌ Not Available"
      database_url := none
      database_name := none
      connection_status := "Not Connected"
      collections := [] }
  let r1 :=
    match odb with
    | some b =>
      let r :=
        { r0 with
          database := "✅ Available"
          database_url := some (if envTruthy env.databaseUrl then "✅ Set" else "❌ Not Set")
          database_name := some b.name
          connection_status := "Connected" }
      match list_collection_names b with
      | .ok collections =>
        { r with collections := collections.take 10, database := "✅ Connected & Working" }
      | .error _ => { r with database := "⚠️  Connected but Error" }
    | none => { r0 with database := "ℹ️ Using demo mode (no database)" }
  { r1 with
    database_url := some (if envTruthy env.databaseUrl then "✅ Set" else "❌ Not Set")
    database_name := some (if envTruthy env.databaseName then "✅ Set" else "❌ Not Set") }

/-- A store with empty collections, as a freshly configured database. -/
def freshStore : Store := { restaurant := [], menuitem := [], order := [], nextId := 0 }

/-- A configured fault-free connection to the fresh store. -/
def freshBehavior : StoreBehavior :=
  { store := freshStore, name := "snacksprint", countFault := none, queryFault := none,
    insertFault := none, listCollectionsResult := .ok [] }

/-- The connection state reached by running the seed body on the fresh store
(the error branch is unreachable because the fresh connection has no fault). -/
def seededBehavior : StoreBehavior :=
  match seedDbBody freshBehavior with
  | .ok b1 => b1
  | .error _ => freshBehavior

/-- Whether an optional field value is a non-empty string. -/
def isNonEmptyStrId : Option Value → Bool
  | some (.vStr s) => !(s = "")
  | _ => false

/-- A concrete structurally valid order payload, matching the worked example
of the spec (one unit item at 9.99 and one zero-quantity item at 8.49). -/
def witnessPayload : OrderPayload :=
  { restaurant_id := "demo-1", customer_name := "Ada Lovelace", phone := "555-0100",
    address := "1 Main St", notes := none,
    items := [{ item_id := "m1", name := "Classic Burger", price := 9.99, quantity := 1 },
              { item_id := "m2", name := "Veggie Bowl", price := 8.49, quantity := 0 }] }

/-- A connection whose count operation raises. -/
def countFaultBehavior : StoreBehavior :=
  { freshBehavior with countFault := some "count boom" }

/-- A connection whose insert operation raises. -/
def insertFaultBehavior : StoreBehavior :=
  { freshBehavior with insertFault := some "insert boom" }

/-- Looking up the key just written by setField yields the written value. -/
theorem lookupField_setField_eq (d : Doc) (key : String) (v : Value) :
    lookupField (setField d key v) key = some v := by
  induction d with
  | nil => simp [setField, lookupField]
  | cons kv tl ih =>
    obtain ⟨k0, v0⟩ := kv
    by_cases h : k0 = key
    · simp [setField, h, lookupField]
    · simp [setField, h, lookupField, ih]

/-- Writing one key with setField leaves lookups of other keys unchanged. -/
theorem lookupField_setField_ne (d : Doc) (key k : String) (v : Value) (hk : k ≠ key) :
    lookupField (setField d key v) k = lookupField d k := by
  induction d with
  | nil => simp [setField, lookupField, Ne.symm hk]
  | cons kv tl ih =>
    obtain ⟨k0, v0⟩ := kv
    by_cases h : k0 = key
    · subst h; simp [setField, lookupField, Ne.symm hk]
    · by_cases h2 : k0 = k
      · subst h2; simp [setField, lookupField, hk]
      · simp [setField, h, lookupField, h2, ih]

/-- Popping one key leaves lookups of other keys unchanged. -/
theorem lookupField_popField_ne (d : Doc) (key k : String) (hk : k ≠ key) :
    ∀ v rest, popField d key = some (v, rest) → lookupField rest k = lookupField d k := by
  induction d with
  | nil => intro v rest hpop; simp [popField] at hpop
  | cons kv tl ih =>
    obtain ⟨k0, v0⟩ := kv
    intro v rest hpop
    by_cases h : k0 = key
    · simp [popField, h] at hpop
      obtain ⟨hv, hrest⟩ := hpop
      subst hrest
      subst h
      simp [lookupField, Ne.symm hk]
    · cases htl : popField tl key with
      | none => simp [popField, h, htl] at hpop
      | some pr =>
        obtain ⟨v1, rest1⟩ := pr
        simp [popField, h, htl] at hpop
        obtain ⟨hv, hrest⟩ := hpop
        subst hrest
        by_cases h2 : k0 = k
        · simp [lookupField, h2]
        · simp [lookupField, h2]
          exact ih v1 rest1 htl

/-- When every document owns a native identity, the remapping loop succeeds
and relates inputs to outputs pointwise. -/
theorem remapIds_eq_some (ds : List Doc) (h : ∀ d ∈ ds, popField d "_id" ≠ none) :
    ∃ ds1, remapIds ds = some ds1 ∧
      List.Forall₂ (fun d d1 => ∃ v rest, popField d "_id" = some (v, rest) ∧
        d1 = setField rest "id" (.vStr (valueStr v))) ds ds1 := by
  induction ds with
  | nil => exact ⟨[], rfl, .nil⟩
  | cons d ds ih =>
    have hd := h d (by simp)
    obtain ⟨⟨v, rest⟩, hp⟩ := Option.ne_none_iff_exists'.mp hd
    obtain ⟨ds1, hds1, hall⟩ := ih fun x hx => h x (by simp [hx])
    exact ⟨_, by simp [remapIds, hp, hds1], .cons ⟨v, rest, hp, rfl⟩ hall⟩

/-- Transport of a pointwise property along a Forall₂ relation to every
member of the right-hand list. -/
theorem forall_mem_right_of_forall₂ {R : Doc → Doc → Prop} {P : Doc → Prop} :
    ∀ {ds ds1 : List Doc}, List.Forall₂ R ds ds1 →
      (∀ d ∈ ds, ∀ d1, R d d1 → P d1) → ∀ d1 ∈ ds1, P d1 := by
  intro ds ds1 h
  induction h with
  | nil => simp
  | cons hR hF ih =>
    intro hl d1 hd1
    rw [List.mem_cons] at hd1
    rcases hd1 with rfl | hd1
    · exact hl _ (by simp) _ hR
    · exact ih (fun d hd d2 hR2 => hl d (by simp [hd]) d2 hR2) d1 hd1

/-- C1: for every structurally valid order payload with items having
quantities q and prices p, create_order computes the stored total as
round(sum of max(1, q) * p, 2); a quantity of 0 or negative contributes as
quantity 1 and the order succeeds rather than being rejected. -/
theorem create_order_total_rounds (b : StoreBehavior) (p : OrderPayload)
    (hi : b.insertFault = none) :
    ∃ oid b1 d,
      create_order (some b) p = .ok ({ ok := true, order_id := oid }, some b1) ∧
      b1.store.order = b.store.order ++ [d] ∧
      lookupField d "total" =
        some (.vNum (round2 ((p.items.map
          fun i => ((max 1 i.quantity : ℤ) : ℚ) * i.price).sum))) := by
  obtain ⟨s, nm, cf, qf, inf, lc⟩ := b
  dsimp only at hi
  subst hi
  exact ⟨_, _, _, rfl, rfl, rfl⟩

/-- C1 witness: the spec example payload (quantities 1 and 0, prices 9.99
and 8.49) at a fault-free fresh store. -/
theorem create_order_total_rounds_witness :
    ∃ oid b1 d,
      create_order (some freshBehavior) witnessPayload =
        .ok ({ ok := true, order_id := oid }, some b1) ∧
      b1.store.order = freshBehavior.store.order ++ [d] ∧
      lookupField d "total" =
        some (.vNum (round2 ((witnessPayload.items.map
          fun i => ((max 1 i.quantity : ℤ) : ℚ) * i.price).sum))) :=
  create_order_total_rounds freshBehavior witnessPayload rfl

/-- C4: every exception raised by the store during seed_demo_data (at the
existence check or at an insert) or during create_order (at the insert)
surfaces as HTTP 500 whose detail is exactly the underlying message, never
as a success acknowledgment. -/
theorem write_faults_return_500 (b : StoreBehavior) (p : OrderPayload) (e : String) :
    (b.countFault = some e →
      seed_demo_data (some b) = .error { status := 500, detail := e }) ∧
    (b.countFault = none → b.insertFault = some e → b.store.restaurant = [] →
      seed_demo_data (some b) = .error { status := 500, detail := e }) ∧
    (b.insertFault = some e →
      create_order (some b) p = .error { status := 500, detail := e }) := by
  obtain ⟨⟨r, m, o, n⟩, nm, cf, qf, inf, lc⟩ := b
  dsimp only
  refine ⟨fun hc => ?_, fun hc hi hr => ?_, fun hi => ?_⟩
  · subst hc; rfl
  · subst hc; subst hi; subst hr; rfl
  · subst hi; rfl

/-- C4 witness: a failing count fault and a failing insert fault at a fresh
store, for both write routes. -/
theorem write_faults_return_500_witness :
    seed_demo_data (some countFaultBehavior) =
      .error { status := 500, detail := "count boom" } ∧
    seed_demo_data (some insertFaultBehavior) =
      .error { status := 500, detail := "insert boom" } ∧
    create_order (some insertFaultBehavior) witnessPayload =
      .error { status := 500, detail := "insert boom" } :=
  ⟨(write_faults_return_500 countFaultBehavior witnessPayload "count boom").1 rfl,
   (write_faults_return_500 insertFaultBehavior witnessPayload "insert boom").2.1 rfl rfl rfl,
   (write_faults_return_500 insertFaultBehavior witnessPayload "insert boom").2.2 rfl⟩

/-- C5: in demo mode (no store configured) list_restaurants returns exactly
one object with id demo-1, list_menu for demo-1 returns exactly 3 items,
and create_order returns the fixed demo order id for every structurally
valid payload without touching any store. -/
theorem demo_mode_responses (p : OrderPayload) :
    (list_restaurants none).length = 1 ∧
    (∀ d ∈ list_restaurants none, lookupField d "id" = some (.vStr "demo-1")) ∧
    (list_menu none "demo-1").length = 3 ∧
    create_order none p = .ok ({ ok := true, order_id := "demo-order-1" }, none) :=
  ⟨by decide, by decide, by decide, rfl⟩

/-- C8 counterexample: the diagnostics markers do not depend only on the
presence of the environment variables: a DATABASE_URL that is present but
empty is reported exactly like an absent one, so two runs that differ only
in the value (empty vs non-empty) of a present DATABASE_URL produce
different database_url fields. -/
theorem test_database_reveals_emptiness :
    (test_database none
        { databaseUrl := some "", databaseName := some "snack" }).database_url ≠
      (test_database none
        { databaseUrl := some "mongodb://h", databaseName := some "snack" }).database_url := by
  decide

/-- C8 amended: the diagnostics route never fails and its database_url and
database_name fields report only whether each environment variable is set
to a non-empty string; two runs whose variable values agree on being
non-empty (even against different stores) produce identical marker fields. -/
theorem test_database_presence_only (odb odb1 : Option StoreBehavior) (env env1 : Env)
    (hu : envTruthy env.databaseUrl = envTruthy env1.databaseUrl)
    (hn : envTruthy env.databaseName = envTruthy env1.databaseName) :
    (test_database odb env).backend = "✅ Running" ∧
    (test_database odb env).database_url = (test_database odb1 env1).database_url ∧
    (test_database odb env).database_name = (test_database odb1 env1).database_name := by
  refine ⟨?_, by simp [test_database, hu], by simp [test_database, hn]⟩
  cases odb with
  | none => rfl
  | some b =>
    cases hlc : b.listCollectionsResult with
    | ok l => simp [test_database, list_collection_names, hlc]
    | error e => simp [test_database, list_collection_names, hlc]

/-- C8 amended witness: an unset variable against a present empty one, and
two distinct non-empty values, across demo mode and a configured store. -/
theorem test_database_presence_only_witness :
    (test_database none { databaseUrl := some "a", databaseName := none }).backend =
      "✅ Running" ∧
    (test_database none { databaseUrl := some "a", databaseName := none }).database_url =
      (test_database (some freshBehavior)
        { databaseUrl := some "b", databaseName := some "" }).database_url ∧
    (test_database none { databaseUrl := some "a", databaseName := none }).database_name =
      (test_database (some freshBehavior)
        { databaseUrl := some "b", databaseName := some "" }).database_name :=
  test_database_presence_only none (some freshBehavior)
    { databaseUrl := some "a", databaseName := none }
    { databaseUrl := some "b", databaseName := some "" } (by decide) (by decide)

/-- C2: seed_demo_data is idempotent in store-backed mode: when any
restaurant document already exists it performs no insert, so calling it
twice from an empty store inserts exactly one restaurant and its three menu
items in total, never duplicated. -/
theorem seed_demo_data_idempotent (b : StoreBehavior)
    (hc : b.countFault = none) (hi : b.insertFault = none) :
    (0 < b.store.restaurant.length →
      seed_demo_data (some b) = .ok ({ ok := true, mode := "db" }, some b)) ∧
    (b.store.restaurant = [] →
      ∃ b1, seed_demo_data (some b) = .ok ({ ok := true, mode := "db" }, some b1) ∧
        seed_demo_data (some b1) = .ok ({ ok := true, mode := "db" }, some b1) ∧
        b1.store.restaurant.length = 1 ∧
        b1.store.menuitem.length = b.store.menuitem.length + 3) := by
  obtain ⟨⟨r, m, o, n⟩, nm, cf, qf, inf, lc⟩ := b
  dsimp only at hc hi ⊢
  subst hc
  subst hi
  constructor
  · intro hpos
    cases r with
    | nil => simp at hpos
    | cons d0 r0 => rfl
  · intro hr
    subst hr
    refine ⟨_, rfl, rfl, rfl, ?_⟩
    simp [seedDbBody, seedMenuLoop, create_document, Store.putColl]

/-- C2 witness: two consecutive seed calls against the fresh empty store. -/
theorem seed_demo_data_idempotent_witness :
    ∃ b1, seed_demo_data (some freshBehavior) = .ok ({ ok := true, mode := "db" }, some b1) ∧
      seed_demo_data (some b1) = .ok ({ ok := true, mode := "db" }, some b1) ∧
      b1.store.restaurant.length = 1 ∧
      b1.store.menuitem.length = freshBehavior.store.menuitem.length + 3 :=
  (seed_demo_data_idempotent freshBehavior rfl rfl).2 rfl

/-- C7: after seed_demo_data inserts into an empty store, every inserted
menu item document carries restaurant_id equal to the store-assigned
identity of the restaurant inserted in the same call, its demo id key has
been removed, and a restaurant with that identity exists in the store. -/
theorem seed_menu_references_restaurant (b : StoreBehavior)
    (hc : b.countFault = none) (hi : b.insertFault = none)
    (hr : b.store.restaurant = []) (hm : b.store.menuitem = []) :
    ∃ b1,
      seed_demo_data (some b) = .ok ({ ok := true, mode := "db" }, some b1) ∧
      b1.store.menuitem.length = 3 ∧
      (∀ d ∈ b1.store.menuitem,
        lookupField d "restaurant_id" = some (.vStr (oidStr b.store.nextId)) ∧
        lookupField d "id" = none) ∧
      ∃ rdoc ∈ b1.store.restaurant,
        lookupField rdoc "_id" = some (.vStr (oidStr b.store.nextId)) := by
  obtain ⟨⟨r, m, o, n⟩, nm, cf, qf, inf, lc⟩ := b
  dsimp only at hc hi hr hm ⊢
  subst hc
  subst hi
  subst hr
  subst hm
  refine ⟨_, rfl, rfl, ?_, ?_⟩
  · intro d hd
    simp [seedDbBody, seedMenuLoop, create_document, Store.putColl, DEMO_MENU,
      count_documents, Store.getColl, seedRestaurantDoc] at hd
    rcases hd with rfl | rfl | rfl
    · exact ⟨rfl, rfl⟩
    · exact ⟨rfl, rfl⟩
    · exact ⟨rfl, rfl⟩
  · exact ⟨("_id", Value.vStr (oidStr n)) :: seedRestaurantDoc,
      List.mem_singleton_self _, rfl⟩

/-- C7 witness: the fresh empty store. -/
theorem seed_menu_references_restaurant_witness :
    ∃ b1,
      seed_demo_data (some freshBehavior) = .ok ({ ok := true, mode := "db" }, some b1) ∧
      b1.store.menuitem.length = 3 ∧
      (∀ d ∈ b1.store.menuitem,
        lookupField d "restaurant_id" = some (.vStr (oidStr freshBehavior.store.nextId)) ∧
        lookupField d "id" = none) ∧
      ∃ rdoc ∈ b1.store.restaurant,
        lookupField rdoc "_id" = some (.vStr (oidStr freshBehavior.store.nextId)) :=
  seed_menu_references_restaurant freshBehavior rfl rfl rfl rfl

/-- C9: a menu item inserted by seed_demo_data and then returned by
list_menu for the seeded restaurant carries its store identity remapped to
the public id field as a non-empty string, distinct across the items, and
no longer contains the native identity field. -/
theorem menu_round_trip_ids :
    seed_demo_data (some freshBehavior) = .ok ({ ok := true, mode := "db" }, some seededBehavior) ∧
    (∃ rdoc ∈ seededBehavior.store.restaurant,
      lookupField rdoc "_id" = some (.vStr (oidStr 0))) ∧
    (list_menu (some seededBehavior) (oidStr 0)).length = 3 ∧
    (∀ d ∈ list_menu (some seededBehavior) (oidStr 0),
      isNonEmptyStrId (lookupField d "id") = true ∧ lookupField d "_id" = none) ∧
    ((list_menu (some seededBehavior) (oidStr 0)).map fun d => lookupField d "id").Nodup := by
  refine ⟨rfl, by decide, by decide, by decide, by decide⟩

/-- C10: a persisted order document contains the payload items verbatim
(original quantities included), the customer fields unchanged, status
exactly pending, and gains no subtotal or delivery_fee field. -/
theorem order_doc_frame (b : StoreBehavior) (p : OrderPayload)
    (hi : b.insertFault = none) :
    ∃ oid b1 d,
      create_order (some b) p = .ok ({ ok := true, order_id := oid }, some b1) ∧
      b1.store.order = b.store.order ++ [d] ∧
      lookupField d "items" = some (.vItems p.items) ∧
      lookupField d "customer_name" = some (.vStr p.customer_name) ∧
      lookupField d "phone" = some (.vStr p.phone) ∧
      lookupField d "address" = some (.vStr p.address) ∧
      lookupField d "restaurant_id" = some (.vStr p.restaurant_id) ∧
      lookupField d "notes" = some (notesValue p.notes) ∧
      lookupField d "status" = some (.vStr "pending") ∧
      lookupField d "subtotal" = none ∧
      lookupField d "delivery_fee" = none := by
  obtain ⟨s, nm, cf, qf, inf, lc⟩ := b
  dsimp only at hi
  subst hi
  exact ⟨_, _, _, rfl, rfl, rfl, rfl, rfl, rfl, rfl, rfl, rfl, rfl, rfl⟩

/-- C10 witness: the example payload persisted at the fresh store. -/
theorem order_doc_frame_witness :
    ∃ oid b1 d,
      create_order (some freshBehavior) witnessPayload =
        .ok ({ ok := true, order_id := oid }, some b1) ∧
      b1.store.order = freshBehavior.store.order ++ [d] ∧
      lookupField d "items" = some (.vItems witnessPayload.items) ∧
      lookupField d "customer_name" = some (.vStr witnessPayload.customer_name) ∧
      lookupField d "phone" = some (.vStr witnessPayload.phone) ∧
      lookupField d "address" = some (.vStr witnessPayload.address) ∧
      lookupField d "restaurant_id" = some (.vStr witnessPayload.restaurant_id) ∧
      lookupField d "notes" = some (notesValue witnessPayload.notes) ∧
      lookupField d "status" = some (.vStr "pending") ∧
      lookupField d "subtotal" = none ∧
      lookupField d "delivery_fee" = none :=
  order_doc_frame freshBehavior witnessPayload rfl

/-- C3: the two read routes never raise: whatever the store does, each
answers either with successfully remapped store data or with the demo
fixture (the demo restaurant list, respectively the demo menu filtered by
restaurant_id); in particular a failing query or a failing remap yields the
demo fallback rather than an error response. -/
theorem read_routes_always_answer (odb : Option StoreBehavior) (rid : String) :
    (list_restaurants odb = [DEMO_RESTAURANT] ∨
      ∃ b data, odb = some b ∧ get_documents b "restaurant" [] = .ok data ∧
        remapIds data = some (list_restaurants odb)) ∧
    (list_menu odb rid = demoMenuFor rid ∨
      ∃ b items, odb = some b ∧
        get_documents b "menuitem" [("restaurant_id", .vStr rid)] = .ok items ∧
        remapIds items = some (list_menu odb rid)) := by
  constructor
  · cases odb with
    | none => exact .inl rfl
    | some b =>
      cases hq : get_documents b "restaurant" [] with
      | error e => exact .inl (by simp [list_restaurants, hq])
      | ok data =>
        cases hm : remapIds data with
        | none => exact .inl (by simp [list_restaurants, hq, hm])
        | some ds => exact .inr ⟨b, data, rfl, hq, by simp [list_restaurants, hq, hm]⟩
  · cases odb with
    | none => exact .inl rfl
    | some b =>
      cases hq : get_documents b "menuitem" [("restaurant_id", .vStr rid)] with
      | error e => exact .inl (by simp [list_menu, hq])
      | ok items =>
        cases hm : remapIds items with
        | none => exact .inl (by simp [list_menu, hq, hm])
        | some ds => exact .inr ⟨b, items, rfl, hq, by simp [list_menu, hq, hm]⟩

/-- C6: list_menu returns exactly the menu items whose restaurant_id equals
the requested id under exact string equality, in both modes: in demo mode
membership is equivalent to being a demo item with that restaurant_id, and
in store-backed mode (fault-free, every stored item owning an identity) the
result has one entry per matching stored document and every returned
document carries the requested restaurant_id; an id matching nothing thus
yields an empty sequence, not an error. -/
theorem list_menu_exact_filter (rid : String) :
    (∀ m, m ∈ list_menu none rid ↔
      m ∈ DEMO_MENU ∧ lookupField m "restaurant_id" = some (.vStr rid)) ∧
    (∀ b : StoreBehavior, b.queryFault = none →
      (∀ d ∈ b.store.menuitem, popField d "_id" ≠ none) →
      (list_menu (some b) rid).length =
        (b.store.menuitem.filter fun d =>
          decide (lookupField d "restaurant_id" = some (.vStr rid))).length ∧
      ∀ d ∈ list_menu (some b) rid,
        lookupField d "restaurant_id" = some (.vStr rid)) := by
  constructor
  · intro m
    simp [list_menu, demoMenuFor, List.mem_filter]
  · intro b hq hpop
    have hfilter :
        (b.store.menuitem.filter fun d =>
            matchesFilter d [("restaurant_id", .vStr rid)]) =
          b.store.menuitem.filter fun d =>
            decide (lookupField d "restaurant_id" = some (.vStr rid)) := by
      apply List.filter_congr
      intro d _
      simp [matchesFilter]
    obtain ⟨ds1, hds1, hall⟩ := remapIds_eq_some
      (b.store.menuitem.filter fun d => matchesFilter d [("restaurant_id", .vStr rid)])
      (fun d hd => hpop d (List.mem_of_mem_filter hd))
    have hmenu : list_menu (some b) rid = ds1 := by
      simp [list_menu, get_documents, hq, Store.getColl, hds1]
    refine ⟨?_, ?_⟩
    · rw [hmenu, ← hall.length_eq, hfilter]
    · rw [hmenu]
      refine forall_mem_right_of_forall₂ hall ?_
      intro d hd d1 hR
      obtain ⟨v, rest, hp, rfl⟩ := hR
      have hmem := List.mem_filter.mp hd
      have hd_rid : lookupField d "restaurant_id" = some (.vStr rid) := by
        have := hmem.2
        simpa [matchesFilter] using this
      rw [lookupField_setField_ne rest "id" "restaurant_id" _ (by decide),
        lookupField_popField_ne d "_id" "restaurant_id" (by decide) v rest hp]
      exact hd_rid

/-- C6 witness: the seeded store queried for an id that no stored item
references (the demo id demo-1 is replaced by a store identity at seed
time), returning the empty sequence. -/
theorem list_menu_exact_filter_witness :
    (list_menu (some seededBehavior) "demo-1").length =
      (seededBehavior.store.menuitem.filter fun d =>
        decide (lookupField d "restaurant_id" = some (.vStr "demo-1"))).length ∧
    ∀ d ∈ list_menu (some seededBehavior) "demo-1",
      lookupField d "restaurant_id" = some (.vStr "demo-1") :=
  (list_menu_exact_filter "demo-1").2 seededBehavior rfl (by decide)

end SnackSprint
